import Mathlib

/-!
Verification of the evacuator detection-and-evacuation pipeline.

Shallow embedding of the Go sources of rahadiangg/evacuator:
the configuration surface and its validation (src/config.go), the
provider selector and the event dispatcher (src/unnamed/part_014),
the GCP spot probe (src/handler.go, second draft), the AWS polling
loop as a state machine (src/provider_aws.go), the dummy provider
(src/provider_dummy.go), and the handler registry draft of
src/unnamed/part_011.

Durations are modelled as Int nanoseconds, matching Go time.Duration.
Handler errors are modelled as Option String (none means success),
matching the Go convention of a nil error. Fallible constructors are
modelled as Except String values.
-/

namespace Evacuator

/-- One second in nanoseconds; Go `time.Second` as an Int (time.Duration is int64). -/
def timeSecond : Int := 1000000000

/-- src/config.go TelegramConfig. -/
structure TelegramConfig where
  enabled : Bool
  botToken : String
  chatID : String
deriving Repr, DecidableEq

/-- src/config.go KubernetesConfig. -/
structure KubernetesConfig where
  enabled : Bool
  skipDaemonSets : Bool
  deleteEmptyDirData : Bool
  kubeconfig : String
  inCluster : Bool
deriving Repr, DecidableEq

/-- src/config.go NomadConfig. -/
structure NomadConfig where
  enabled : Bool
  force : Bool
deriving Repr, DecidableEq

/-- src/config.go HandlerConfig, after parseDurationFields has filled the
parsed ProcessingTimeout duration. -/
structure HandlerConfig where
  processingTimeout : Int
  kubernetes : KubernetesConfig
  nomad : NomadConfig
  telegram : TelegramConfig
deriving Repr, DecidableEq

/-- src/config.go ProviderConfig, after parseDurationFields has filled the
parsed PollInterval and RequestTimeout durations. -/
structure ProviderConfig where
  name : String
  autoDetect : Bool
  pollInterval : Int
  requestTimeout : Int
deriving Repr, DecidableEq

/-- src/config.go Config. -/
structure Config where
  nodeName : String
  provider : ProviderConfig
  handler : HandlerConfig
deriving Repr, DecidableEq

/-- src/config.go validateConfig (lines 136-177), transliterated check by
check in source order. Returns the error message of the first failing
check, or ok. -/
def validateConfig (c : Config) : Except String Unit :=
  if c.provider.name = "" ∧ ¬ c.provider.autoDetect then
    .error "provider.name must be set"
  else if c.provider.pollInterval < 3 * timeSecond ∨ c.provider.pollInterval > 10 * timeSecond then
    .error "provider.poll_interval must be between 3s and 10s"
  else if c.provider.requestTimeout < 1 * timeSecond ∨ c.provider.requestTimeout > 5 * timeSecond then
    .error "provider.request_timeout must be between 1s and 5s"
  else if c.handler.processingTimeout > 75 * timeSecond then
    .error "handler.processing_timeout more than 75s that makes it ineffective"
  else if c.handler.telegram.enabled ∧ c.handler.telegram.botToken = "" ∧ c.handler.telegram.chatID = "" then
    .error "handler.telegram.bot_token and handler.telegram.chat_id must be set"
  else if c.handler.kubernetes.enabled ∧ c.handler.kubernetes.kubeconfig = "" ∧ ¬ c.handler.kubernetes.inCluster then
    .error "handler.kubernetes.kubeconfig must be set if not running in-cluster"
  else if c.handler.kubernetes.enabled ∧ c.handler.nomad.enabled then
    .error "handler.kubernetes and handler.nomad cannot be enabled at the same time"
  else
    .ok ()

/-- A configuration built from the defaults of src/config.go configItems
(poll interval 3s, request timeout 2s, processing timeout 75s, all
handlers disabled), with provider name aws. It passes validateConfig. -/
def validBaseConfig : Config :=
  { nodeName := ""
    provider := { name := "aws", autoDetect := true,
                  pollInterval := 3 * timeSecond, requestTimeout := 2 * timeSecond }
    handler := { processingTimeout := 75 * timeSecond
                 kubernetes := { enabled := false, skipDaemonSets := true,
                                 deleteEmptyDirData := false, kubeconfig := "", inCluster := true }
                 nomad := { enabled := false, force := false }
                 telegram := { enabled := false, botToken := "", chatID := "" } } }

/-- A configuration with telegram enabled, a bot token present, but an
empty chat id. All other fields are the validated defaults. -/
def telegramMissingChatIDConfig : Config :=
  { validBaseConfig with
    handler := { validBaseConfig.handler with
                 telegram := { enabled := true, botToken := "123456:token", chatID := "" } } }

/-- A valid configuration whose handler.processing_timeout is 60s instead
of the 75s default. -/
def sixtySecondTimeoutConfig : Config :=
  { validBaseConfig with
    handler := { validBaseConfig.handler with processingTimeout := 60 * timeSecond } }

/-- src/handler.go TerminationEvent. The reason enum is carried as its
underlying string, as in the Go source (type TerminationReason string). -/
structure TerminationEvent where
  hostname : String
  privateIP : String
  instanceID : String
  reason : String
deriving Repr, DecidableEq

/-- src/handler.go TerminationReasonSpot. -/
def terminationReasonSpot : String := "spot termination"

/-- src/handler.go Handler interface: a name, and HandleTermination
modelled as a function from the event to an optional error message
(none is the Go nil error). -/
structure Handler where
  name : String
  handle : TerminationEvent → Option String

/-- src/unnamed/part_014 HandlerResult (lines 21-25). -/
structure HandlerResult where
  handlerName : String
  error : Option String
  processedAt : Int
deriving Repr, DecidableEq

/-- src/handler_log.go LogHandler: logs the event and returns nil. -/
def logHandler : Handler :=
  { name := "log", handle := fun _ => none }

/-- src/handler_dummy.go DummyHandler: logs the event and returns nil. -/
def dummyHandler : Handler :=
  { name := "dummy", handle := fun _ => none }

/-- src/unnamed/part_014 lines 227-230: inside each handler goroutine, if
node_name is configured it replaces the event hostname before handling. -/
def applyNodeNameOverride (nodeName : String) (event : TerminationEvent) : TerminationEvent :=
  if nodeName ≠ "" then { event with hostname := nodeName } else event

/-- src/unnamed/part_014 broadcastTerminationEvents (lines 202-273), the
body run for one received event: for every registered handler a task is
started and writes exactly one HandlerResult to the results channel; all
tasks are awaited (handlerWg.Wait) and every result is collected. The Go
function performs no validation of the event, never skips a handler, and
returns nothing to its caller. Channel arrival order is abstracted to
registration order; processedAt is the abstract completion time. -/
def processEvent (config : Config) (handlers : List Handler)
    (event : TerminationEvent) (now : Int) : List HandlerResult :=
  handlers.map fun h =>
    { handlerName := h.name
      error := h.handle (applyNodeNameOverride config.nodeName event)
      processedAt := now }

/-- src/unnamed/part_014 lines 248-261: successCount counts results with a
nil error. -/
def successCount (results : List HandlerResult) : Nat :=
  (results.filter fun r => r.error.isNone).length

/-- src/unnamed/part_014 line 266: failed handlers are those whose result
carries an error. -/
def failureCount (results : List HandlerResult) : Nat :=
  (results.filter fun r => r.error.isSome).length

/-- The well-formedness predicate on events stated by the specification:
hostname, instanceID and reason all non-empty. -/
def wellFormedEvent (e : TerminationEvent) : Prop :=
  e.hostname ≠ "" ∧ e.instanceID ≠ "" ∧ e.reason ≠ ""

instance (e : TerminationEvent) : Decidable (wellFormedEvent e) := by
  unfold wellFormedEvent
  infer_instance

/-- src/handler_telegram.go TelegramHandler.validateTerminationEvent
(lines 100-111): returns the first applicable error message, or none.
This check runs inside the telegram handler itself, not in the
dispatcher. -/
def validateTerminationEvent (event : TerminationEvent) : Option String :=
  if event.hostname = "" then some "hostname cannot be empty"
  else if event.instanceID = "" then some "instance ID cannot be empty"
  else if event.reason = "" then some "termination reason cannot be empty"
  else none

/-- An event with an empty hostname: not well-formed. -/
def malformedEvent : TerminationEvent :=
  { hostname := "", privateIP := "172.16.1.1", instanceID := "i-0abc", reason := terminationReasonSpot }

/-- src/unnamed/part_014 line 33: the constant HandlerProcessingTimeout =
75 * time.Second. -/
def HandlerProcessingTimeout : Int := 75 * timeSecond

/-- The timeout the dispatcher passes to context.WithTimeout for each
handler task (src/unnamed/part_014 line 222). The source uses the
package constant HandlerProcessingTimeout; the configuration snapshot is
in scope there (the config variable of line 204) but its
handler.processing_timeout value is not consulted. -/
def broadcastHandlerTimeout (_config : Config) : Int := HandlerProcessingTimeout

/-- The per-handler context deadline: dispatch time plus the timeout the
dispatcher uses. -/
def handlerDeadline (config : Config) (now : Int) : Int :=
  now + broadcastHandlerTimeout config

/-- A provider as the selector sees it: its constant Name() tag and the
outcome of its IsSupported probe in the current environment. -/
structure ProviderInfo where
  name : String
  supported : Bool
deriving Repr, DecidableEq

/-- Go strings.EqualFold, modelled as equality after lowercasing (the
provider tags are plain ASCII). -/
def equalFold (a b : String) : Bool :=
  a.toLower == b.toLower

/-- The loop of src/unnamed/part_014 DetectProvider lines 166-178: scan
for the first provider whose tag matches case-insensitively; on a match
return it when supported, otherwise return nothing at once; past the end
of the list return nothing. -/
def detectConfigured (name : String) : List ProviderInfo → Option ProviderInfo
  | [] => none
  | p :: rest =>
    if equalFold p.name name then
      if p.supported then some p else none
    else
      detectConfigured name rest

/-- The loop of src/unnamed/part_014 DetectProvider lines 189-194: return
the first provider whose IsSupported probe succeeded. -/
def autoDetectFirst : List ProviderInfo → Option ProviderInfo
  | [] => none
  | p :: rest => if p.supported then some p else autoDetectFirst rest

/-- src/unnamed/part_014 DetectProvider (lines 161-198). A none result
makes main exit with status 1 (fatal). -/
def DetectProvider (cfg : ProviderConfig) (providers : List ProviderInfo) : Option ProviderInfo :=
  if cfg.name ≠ "" then
    detectConfigured cfg.name providers
  else if ¬ cfg.autoDetect then
    none
  else
    autoDetectFirst providers

/-- The selector algorithm as the specification words it: with a
configured name, find the case-insensitive match and fail unless it is
supported; otherwise with auto-detect on, the first supported provider
wins; otherwise fail. -/
def detectProviderSpec (cfg : ProviderConfig) (providers : List ProviderInfo) : Option ProviderInfo :=
  if cfg.name ≠ "" then
    match providers.find? (fun p => equalFold p.name cfg.name) with
    | some p => if p.supported then some p else none
    | none => none
  else if cfg.autoDetect then
    providers.find? (fun p => p.supported)
  else
    none

/-- Outcome of one metadata fetch: a 200 body, or an error (non-200
status or transport failure), as surfaced by doMetadataRequest. -/
inductive FetchResult where
  | success (body : String)
  | failure (msg : String)
deriving Repr, DecidableEq

/-- GcpProvider.isSpotTerminationDetected (src/handler.go lines 414-427):
a fetch error is returned as the error; otherwise the function returns
true for every 200 body. The body == "FALSE" comparison at line 422 only
emits a debug log saying no spot termination was detected and then falls
through to the unconditional return of (true, nil). -/
def gcpIsSpotTerminationDetected : FetchResult → Except String Bool
  | .failure msg => .error msg
  | .success _ => .ok true

/-- The interpretation the claim states for the GCP spot endpoint: a 200
body signals preemption exactly when it is the literal TRUE. -/
def gcpBodySignalsPreemption (body : String) : Bool :=
  body == "TRUE"

/-- State of one provider polling loop (src/provider_aws.go
startMonitoring, lines 285-325) together with its detached emission
task. lockHeld is the sync.Mutex guarded by TryLock; inFlight counts
probes currently executing; loopDone records that the for/select loop
has returned; pendingEmit records that the detached goroutine of lines
307-313 has been spawned and has not yet sent its event; emitted is the
sequence of events sent on the output channel; droppedTicks counts ticks
dropped at line 289-292. -/
structure MonitorState where
  lockHeld : Bool
  inFlight : Nat
  loopDone : Bool
  pendingEmit : Bool
  emitted : List TerminationEvent
  droppedTicks : Nat
deriving Repr, DecidableEq

/-- The loop starts with the lock free, no probe running, nothing
emitted. -/
def initialMonitorState : MonitorState :=
  { lockHeld := false, inFlight := 0, loopDone := false, pendingEmit := false,
    emitted := [], droppedTicks := 0 }

/-- The observable events of the polling loop: a ticker tick, the
completion of the in-flight probe with its result, the detached emission
task sending its event, and context cancellation. -/
inductive MonitorEvent where
  | tick
  | probeResult (r : Except String Bool)
  | emitSend (e : TerminationEvent)
  | cancel
deriving Repr

/-- One transition of the polling loop, following src/provider_aws.go
lines 285-325. A tick after the loop has returned does nothing (the
ticker is stopped). A tick while the lock is held is dropped with a
debug log (TryLock fails, lines 289-292). Otherwise the lock is taken
and a probe starts. A probe finishing with an error or with no notice
releases the lock and the loop continues (lines 296-300, 319); a probe
that detected termination makes the loop return while the detached
emission task keeps the lock (lines 302-317). The emission task sends
its event and then releases the lock (lines 307-313). Cancellation is
observed at the select when no probe is running and makes the loop
return without emitting (lines 321-322). -/
def monitorStep (s : MonitorState) (ev : MonitorEvent) : MonitorState :=
  match ev with
  | .tick =>
    if s.loopDone then s
    else if s.lockHeld then { s with droppedTicks := s.droppedTicks + 1 }
    else { s with lockHeld := true, inFlight := s.inFlight + 1 }
  | .probeResult r =>
    if s.inFlight = 0 then s
    else
      match r with
      | .error _ => { s with inFlight := s.inFlight - 1, lockHeld := false }
      | .ok false => { s with inFlight := s.inFlight - 1, lockHeld := false }
      | .ok true => { s with inFlight := s.inFlight - 1, loopDone := true, pendingEmit := true }
  | .emitSend e =>
    if s.pendingEmit then
      { s with emitted := s.emitted ++ [e], pendingEmit := false, lockHeld := false }
    else s
  | .cancel =>
    if s.inFlight = 0 then { s with loopDone := true } else s

/-- Run the polling loop from its initial state over a sequence of
events. -/
def runMonitor (evs : List MonitorEvent) : MonitorState :=
  evs.foldl monitorStep initialMonitorState

/-- The single-holder discipline: never more than one probe in flight, a
probe in flight owns the lock, and a pending emission only exists after
the loop has returned with no probe running. -/
def MonitorInv (s : MonitorState) : Prop :=
  s.inFlight ≤ 1 ∧ (s.inFlight = 1 → s.lockHeld = true) ∧
    (s.pendingEmit = true → s.inFlight = 0 ∧ s.loopDone = true)

/-- A loop that has returned with no probe running and no pending
emission. -/
def MonitorQuiescent (s : MonitorState) : Prop :=
  s.loopDone = true ∧ s.inFlight = 0 ∧ s.pendingEmit = false

/-- A mid-poll state: the lock is held by the running probe and the loop
is still alive. -/
def lockedMonitorState : MonitorState :=
  { lockHeld := true, inFlight := 1, loopDone := false, pendingEmit := false,
    emitted := [], droppedTicks := 0 }

/-- src/provider_dummy.go, second draft (lines 82-98): the synthetic
event the dummy provider sends. -/
def dummyTerminationEvent : TerminationEvent :=
  { hostname := "dummy", privateIP := "172.16.1.1", instanceID := "dummy-instance-id",
    reason := terminationReasonSpot }

/-- src/provider_dummy.go StartMonitoring (second draft, lines 82-98):
the spawned goroutine sleeps detectionWait and then sends the synthetic
event. The goroutine never consults ctx — no select on ctx.Done appears
in its body — so the emission it attempts is the same whatever the
cancellation time is; both arguments are therefore ignored. -/
def dummyMonitorEmissions (_detectionWait _cancelTime : Nat) : List TerminationEvent :=
  [dummyTerminationEvent]

/-- Base handler list of src/unnamed/part_011 RegisterHandlers lines
58-67: a dummy handler when the configured provider is dummy, otherwise
empty. List entries are Options since a failed constructor leaves a nil
handler value in the Go slice. -/
def registryBase (providerName : String) : List (Option Handler) :=
  if providerName = "dummy" then [some dummyHandler] else []

/-- One enabled-handler block of src/unnamed/part_011 RegisterHandlers
(lines 69-103): when the flag is set the constructor result is appended
to the slice — also when construction failed, in which case the appended
value is nil (none); the error is only logged and collected. -/
def appendIfEnabled (flag : Bool) (l : List (Option Handler)) (ctor : Except String Handler) :
    List (Option Handler) :=
  if flag then l ++ [ctor.toOption] else l

/-- The handler slice built by src/unnamed/part_011 RegisterHandlers in
source order: dummy base, then kubernetes, telegram and nomad blocks.
Constructor outcomes are passed in as Except values. -/
def registeredHandlerList (providerName : String) (hc : HandlerConfig)
    (kubernetesCtor telegramCtor nomadCtor : Except String Handler) : List (Option Handler) :=
  appendIfEnabled hc.nomad.enabled
    (appendIfEnabled hc.telegram.enabled
      (appendIfEnabled hc.kubernetes.enabled (registryBase providerName) kubernetesCtor)
      telegramCtor)
    nomadCtor

/-- src/unnamed/part_011 RegisterHandlers (lines 52-116): error only when
the final slice is empty; otherwise the slice — possibly holding nil
entries — is returned with a nil error. The collected constructor
errors never reach the return value. -/
def registerHandlers (providerName : String) (hc : HandlerConfig)
    (kubernetesCtor telegramCtor nomadCtor : Except String Handler) :
    Except String (List (Option Handler)) :=
  if (registeredHandlerList providerName hc kubernetesCtor telegramCtor nomadCtor).isEmpty then
    .error "no handlers registered"
  else
    .ok (registeredHandlerList providerName hc kubernetesCtor telegramCtor nomadCtor)

/-- A handler configuration with only kubernetes enabled. -/
def k8sOnlyHandlerConfig : HandlerConfig :=
  { validBaseConfig.handler with
    kubernetes := { validBaseConfig.handler.kubernetes with enabled := true } }

/-! ## Theorems -/

/-- C9: every configuration that passes validateConfig satisfies
3s ≤ pollInterval ≤ 10s, 1s ≤ requestTimeout ≤ 5s and
processingTimeout ≤ 75s. A configuration violating one of these bounds
is rejected with an error: that is the contrapositive of this statement,
since validateConfig either returns ok or an error message. -/
theorem validateConfig_duration_bounds (c : Config)
    (h : validateConfig c = .ok ()) :
    3 * timeSecond ≤ c.provider.pollInterval ∧ c.provider.pollInterval ≤ 10 * timeSecond ∧
    1 * timeSecond ≤ c.provider.requestTimeout ∧ c.provider.requestTimeout ≤ 5 * timeSecond ∧
    c.handler.processingTimeout ≤ 75 * timeSecond := by
  unfold validateConfig at h
  split at h
  · exact Except.noConfusion h
  split at h
  · exact Except.noConfusion h
  split at h
  · exact Except.noConfusion h
  split at h
  · exact Except.noConfusion h
  split at h
  · exact Except.noConfusion h
  split at h
  · exact Except.noConfusion h
  split at h
  · exact Except.noConfusion h
  rename_i h1 h2 h3 h4 h5 h6 h7
  push_neg at h2 h3 h4
  exact ⟨h2.1, h2.2, h3.1, h3.2, h4⟩

/-- C9 witness: the default configuration passes validation and the
bounds evaluate as stated. -/
theorem validateConfig_duration_bounds_witness :
    3 * timeSecond ≤ validBaseConfig.provider.pollInterval ∧
    validBaseConfig.provider.pollInterval ≤ 10 * timeSecond ∧
    1 * timeSecond ≤ validBaseConfig.provider.requestTimeout ∧
    validBaseConfig.provider.requestTimeout ≤ 5 * timeSecond ∧
    validBaseConfig.handler.processingTimeout ≤ 75 * timeSecond :=
  validateConfig_duration_bounds validBaseConfig rfl

/-- C8: the source check at src/config.go lines 158-162 fires only when
both telegram credentials are empty (a conjunction), so a configuration
with telegram enabled, a bot token present and an empty chat id passes
validateConfig — contradicting both the claim and the error message of
the check itself, which demands that bot_token and chat_id be set. -/
theorem validateConfig_telegram_accepts_missing_chatID :
    validateConfig telegramMissingChatIDConfig = .ok () ∧
    telegramMissingChatIDConfig.handler.telegram.enabled = true ∧
    telegramMissingChatIDConfig.handler.telegram.chatID = "" :=
  ⟨rfl, rfl, rfl⟩

/-- C4 counterexample: a valid configuration sets
handler.processing_timeout to 60s, yet the deadline the dispatcher
computes for each handler task is not dispatch time plus that configured
value. -/
theorem handlerDeadline_ignores_configured_timeout :
    validateConfig sixtySecondTimeoutConfig = Except.ok () ∧
    handlerDeadline sixtySecondTimeoutConfig 0 ≠
      0 + sixtySecondTimeoutConfig.handler.processingTimeout :=
  ⟨rfl, by decide⟩

/-- C4 amended: the per-handler deadline is dispatch time plus the fixed
constant HandlerProcessingTimeout = 75s, for every configuration — the
dispatcher never consults the configured handler.processing_timeout. -/
theorem handlerDeadline_uses_constant (c1 c2 : Config) (now : Int) :
    handlerDeadline c1 now = now + 75 * timeSecond ∧
    handlerDeadline c1 now = handlerDeadline c2 now :=
  ⟨rfl, rfl⟩

/-- C3: at a 200 response whose body is the literal FALSE, the GCP probe
still reports termination detected, while the claim (and the debug log
in the probe itself) says such a body means no preemption. -/
theorem gcp_detects_on_any_200_body :
    gcpIsSpotTerminationDetected (FetchResult.success "FALSE") = Except.ok true ∧
    gcpBodySignalsPreemption "FALSE" = false :=
  ⟨rfl, rfl⟩

/-- The configured-name scan equals a find? over the list followed by the
strict support check. -/
theorem detectConfigured_eq_find (name : String) : ∀ ps : List ProviderInfo,
    detectConfigured name ps =
      match ps.find? (fun p => equalFold p.name name) with
      | some p => if p.supported then some p else none
      | none => none
  | [] => rfl
  | p :: ps => by
    by_cases h : equalFold p.name name
    · simp [detectConfigured, h, List.find?_cons_of_pos]
    · rw [show detectConfigured name (p :: ps) = detectConfigured name ps from by
          simp [detectConfigured, h],
        show List.find? (fun q => equalFold q.name name) (p :: ps) =
            List.find? (fun q => equalFold q.name name) ps from by
          simp [List.find?_cons, h]]
      exact detectConfigured_eq_find name ps

/-- The auto-detect scan equals a find? of the first supported
provider. -/
theorem autoDetectFirst_eq_find : ∀ ps : List ProviderInfo,
    autoDetectFirst ps = ps.find? (fun p => p.supported)
  | [] => rfl
  | p :: ps => by
    by_cases h : p.supported
    · simp [autoDetectFirst, h, List.find?_cons_of_pos]
    · rw [show autoDetectFirst (p :: ps) = autoDetectFirst ps from by
          simp [autoDetectFirst, h],
        show List.find? (fun q => q.supported) (p :: ps) =
            List.find? (fun q => q.supported) ps from by
          simp [List.find?_cons, h]]
      exact autoDetectFirst_eq_find ps

/-- C5: the selector of the source behaves exactly as the claim states:
configured non-empty name — case-insensitive scan, none (fatal) when no
provider matches or the match is unsupported; no name and auto-detect —
first supported provider in list order; otherwise none (fatal). -/
theorem DetectProvider_matches_spec (cfg : ProviderConfig) (providers : List ProviderInfo) :
    DetectProvider cfg providers = detectProviderSpec cfg providers := by
  unfold DetectProvider detectProviderSpec
  by_cases h : cfg.name = ""
  · simp only [h, ne_eq, not_true_eq_false, if_false]
    by_cases ha : cfg.autoDetect <;> simp [ha, autoDetectFirst_eq_find]
  · simp [h, detectConfigured_eq_find]

/-- Every result is either a success or a failure, so the two counts the
dispatcher logs partition the result list. -/
theorem successCount_add_failureCount : ∀ results : List HandlerResult,
    successCount results + failureCount results = results.length
  | [] => rfl
  | r :: rs => by
    have ih := successCount_add_failureCount rs
    cases he : r.error <;>
      simp [successCount, failureCount, List.filter_cons, he] at ih ⊢ <;> omega

/-- C1: dispatch totality — for one received event and N registered
handlers the dispatcher produces exactly N result records, one per
handler in registration order (so no handler is skipped when an earlier
one fails), and the success and failure counts it aggregates partition
those N records. processEvent is a total function into a plain list: the
Go broadcastTerminationEvents returns nothing to its caller, so no error
can propagate. -/
theorem broadcast_produces_one_result_per_handler (config : Config)
    (handlers : List Handler) (event : TerminationEvent) (now : Int) :
    (processEvent config handlers event now).length = handlers.length ∧
    (processEvent config handlers event now).map HandlerResult.handlerName =
      handlers.map Handler.name ∧
    successCount (processEvent config handlers event now) +
      failureCount (processEvent config handlers event now) = handlers.length := by
  refine ⟨by simp [processEvent], ?_, ?_⟩
  · simp [processEvent, List.map_map]
  · rw [successCount_add_failureCount]
    simp [processEvent]

/-- C2 counterexample: the event with an empty hostname is not
well-formed, yet the dispatcher fans it out — the registered log handler
is invoked on it and a result record for it is produced, where the claim
says the dispatcher rejects the event and no handler sees it. -/
theorem dispatcher_accepts_malformed_event :
    ¬ wellFormedEvent malformedEvent ∧
    processEvent validBaseConfig [logHandler] malformedEvent 0 =
      [{ handlerName := "log", error := none, processedAt := 0 }] :=
  ⟨fun h => h.1 rfl, rfl⟩

/-- C2 amended: the dispatcher itself performs no well-formedness check —
every received event, well-formed or not, is fanned out to all
registered handlers. The rejection of ill-formed events lives inside the
telegram handler, whose validateTerminationEvent accepts an event
exactly when hostname, instanceID and reason are all non-empty. -/
theorem dispatcher_fans_out_all_events_validation_in_telegram (config : Config)
    (handlers : List Handler) (event : TerminationEvent) (now : Int) :
    (processEvent config handlers event now).map HandlerResult.handlerName =
      handlers.map Handler.name ∧
    (validateTerminationEvent event = none ↔ wellFormedEvent event) := by
  constructor
  · simp [processEvent, List.map_map]
  · unfold validateTerminationEvent wellFormedEvent
    by_cases h1 : event.hostname = "" <;> by_cases h2 : event.instanceID = "" <;>
      by_cases h3 : event.reason = "" <;> simp [h1, h2, h3]

/-- Every transition of the polling loop preserves the single-holder
discipline. -/
theorem monitorStep_inv {s : MonitorState} (hs : MonitorInv s) (ev : MonitorEvent) :
    MonitorInv (monitorStep s ev) := by
  obtain ⟨h1, h2, h3⟩ := hs
  cases ev with
  | tick =>
    by_cases hd : s.loopDone = true
    · have hstep : monitorStep s .tick = s := by simp [monitorStep, hd]
      rw [hstep]
      exact ⟨h1, h2, h3⟩
    · by_cases hl : s.lockHeld = true
      · have hstep : monitorStep s .tick = { s with droppedTicks := s.droppedTicks + 1 } := by
          simp [monitorStep, hd, hl]
        rw [hstep]
        exact ⟨h1, h2, h3⟩
      · have hz : s.inFlight = 0 := by
          by_contra hne
          have hone : s.inFlight = 1 := by omega
          exact hl (h2 hone)
        have hstep : monitorStep s .tick =
            { s with lockHeld := true, inFlight := s.inFlight + 1 } := by
          simp [monitorStep, hd, hl]
        rw [hstep]
        refine ⟨?_, fun _ => rfl, fun hp => absurd (h3 hp).2 hd⟩
        show s.inFlight + 1 ≤ 1
        omega
  | probeResult r =>
    by_cases hz : s.inFlight = 0
    · have hstep : monitorStep s (.probeResult r) = s := by simp [monitorStep, hz]
      rw [hstep]
      exact ⟨h1, h2, h3⟩
    · cases r with
      | error msg =>
        have hstep : monitorStep s (.probeResult (.error msg)) =
            { s with inFlight := s.inFlight - 1, lockHeld := false } := by
          simp [monitorStep, hz]
        rw [hstep]
        refine ⟨show s.inFlight - 1 ≤ 1 by omega, ?_, fun hp => absurd (h3 hp).1 hz⟩
        intro h
        exact absurd (show s.inFlight - 1 = 1 from h) (by omega)
      | ok b =>
        cases b with
        | false =>
          have hstep : monitorStep s (.probeResult (.ok false)) =
              { s with inFlight := s.inFlight - 1, lockHeld := false } := by
            simp [monitorStep, hz]
          rw [hstep]
          refine ⟨show s.inFlight - 1 ≤ 1 by omega, ?_, fun hp => absurd (h3 hp).1 hz⟩
          intro h
          exact absurd (show s.inFlight - 1 = 1 from h) (by omega)
        | true =>
          have hstep : monitorStep s (.probeResult (.ok true)) =
              { s with inFlight := s.inFlight - 1, loopDone := true, pendingEmit := true } := by
            simp [monitorStep, hz]
          rw [hstep]
          refine ⟨show s.inFlight - 1 ≤ 1 by omega, ?_,
            fun _ => ⟨show s.inFlight - 1 = 0 by omega, rfl⟩⟩
          intro h
          exact absurd (show s.inFlight - 1 = 1 from h) (by omega)
  | emitSend e =>
    by_cases hp : s.pendingEmit = true
    · obtain ⟨hf0, _⟩ := h3 hp
      have hstep : monitorStep s (.emitSend e) =
          { s with emitted := s.emitted ++ [e], pendingEmit := false, lockHeld := false } := by
        simp [monitorStep, hp]
      rw [hstep]
      refine ⟨h1, ?_, fun hpe => nomatch hpe⟩
      intro h
      exact absurd (show s.inFlight = 1 from h) (by omega)
    · have hstep : monitorStep s (.emitSend e) = s := by simp [monitorStep, hp]
      rw [hstep]
      exact ⟨h1, h2, h3⟩
  | cancel =>
    by_cases hz : s.inFlight = 0
    · have hstep : monitorStep s .cancel = { s with loopDone := true } := by
        simp [monitorStep, hz]
      rw [hstep]
      exact ⟨h1, h2, fun hp => ⟨(h3 hp).1, rfl⟩⟩
    · have hstep : monitorStep s .cancel = s := by simp [monitorStep, hz]
      rw [hstep]
      exact ⟨h1, h2, h3⟩

/-- The single-holder discipline holds along every run. -/
theorem foldl_monitorStep_inv : ∀ (evs : List MonitorEvent) (s : MonitorState),
    MonitorInv s → MonitorInv (evs.foldl monitorStep s)
  | [], _, hs => hs
  | ev :: evs, _, hs => foldl_monitorStep_inv evs _ (monitorStep_inv hs ev)

/-- C6: along every run of the polling loop at most one probe is in
flight at any instant; and a tick arriving while the single-holder lock
is held (while the loop is alive) changes nothing except the dropped
ticks counter — it is dropped, neither queued nor run concurrently. -/
theorem monitor_single_probe_in_flight (evs : List MonitorEvent) (s : MonitorState)
    (hLock : s.lockHeld = true) (hLive : s.loopDone = false) :
    (runMonitor evs).inFlight ≤ 1 ∧
    monitorStep s .tick = { s with droppedTicks := s.droppedTicks + 1 } := by
  constructor
  · exact (foldl_monitorStep_inv evs initialMonitorState
      ⟨by simp [initialMonitorState], by simp [initialMonitorState], by
        simp [initialMonitorState]⟩).1
  · simp [monitorStep, hLock, hLive]

/-- C6 witness: a run of two ticks keeps at most one probe in flight, and
a tick in a concrete mid-poll state is dropped with only the counter
advanced. -/
theorem monitor_single_probe_in_flight_witness :
    (runMonitor [MonitorEvent.tick, MonitorEvent.tick]).inFlight ≤ 1 ∧
    monitorStep lockedMonitorState .tick =
      { lockedMonitorState with droppedTicks := lockedMonitorState.droppedTicks + 1 } :=
  monitor_single_probe_in_flight [MonitorEvent.tick, MonitorEvent.tick]
    lockedMonitorState rfl rfl

/-- A quiescent loop stays quiescent and never adds to the emitted
sequence. -/
theorem monitorStep_quiescent {s : MonitorState} (h : MonitorQuiescent s) (ev : MonitorEvent) :
    MonitorQuiescent (monitorStep s ev) ∧ (monitorStep s ev).emitted = s.emitted := by
  obtain ⟨hd, hf, hp⟩ := h
  cases ev with
  | tick => simp [monitorStep, hd, MonitorQuiescent, hf, hp]
  | probeResult r => simp [monitorStep, hf, MonitorQuiescent, hd, hp]
  | emitSend e => simp [monitorStep, hp, MonitorQuiescent, hd, hf]
  | cancel => simp [monitorStep, hf, MonitorQuiescent, hd, hp]

/-- The emitted sequence of a quiescent loop is frozen along every
subsequent run. -/
theorem foldl_quiescent_emitted : ∀ (evs : List MonitorEvent) (s : MonitorState),
    MonitorQuiescent s → (evs.foldl monitorStep s).emitted = s.emitted
  | [], _, _ => rfl
  | ev :: evs, s, hs => by
    have h := monitorStep_quiescent hs ev
    calc ((ev :: evs).foldl monitorStep s).emitted
        = (evs.foldl monitorStep (monitorStep s ev)).emitted := rfl
      _ = (monitorStep s ev).emitted := foldl_quiescent_emitted evs _ h.1
      _ = s.emitted := h.2

/-- C7 counterexample: the dummy provider ignores cancellation — its
monitoring goroutine never consults the context — so cancelling at time
0, well before the 10-unit detection wait, still leaves the synthetic
termination event being emitted, where the claim says no provider ever
emits after cancellation. -/
theorem dummy_emits_despite_cancellation :
    (0 : Nat) < 10 ∧ dummyMonitorEmissions 10 0 ≠ [] :=
  ⟨by decide, by simp [dummyMonitorEmissions]⟩

/-- C7 amended: when the polling loop (AWS/GCP) observes cancellation
from a state with no probe in flight and no pending emission, it exits
and no event is ever emitted afterwards, whatever happens next; the
dummy provider however ignores cancellation entirely and always attempts
to emit its synthetic event after its detection wait. -/
theorem monitor_cancel_no_emission (s : MonitorState) (evs : List MonitorEvent)
    (hIdle : s.inFlight = 0) (hPend : s.pendingEmit = false) :
    (evs.foldl monitorStep (monitorStep s .cancel)).emitted = s.emitted ∧
    ∀ w c : Nat, dummyMonitorEmissions w c = [dummyTerminationEvent] := by
  constructor
  · have hq : MonitorQuiescent (monitorStep s .cancel) := by
      simp [monitorStep, hIdle, MonitorQuiescent, hPend]
    have he : (monitorStep s .cancel).emitted = s.emitted := by
      simp [monitorStep, hIdle]
    rw [foldl_quiescent_emitted evs _ hq, he]
  · intro w c
    rfl

/-- C7 witness: from the initial state, after cancellation a tick, a
probe result and an emission attempt all leave the emitted sequence
empty. -/
theorem monitor_cancel_no_emission_witness :
    (([MonitorEvent.tick, MonitorEvent.probeResult (Except.ok true),
        MonitorEvent.emitSend dummyTerminationEvent]).foldl monitorStep
      (monitorStep initialMonitorState .cancel)).emitted = initialMonitorState.emitted ∧
    ∀ w c : Nat, dummyMonitorEmissions w c = [dummyTerminationEvent] :=
  monitor_cancel_no_emission initialMonitorState
    [MonitorEvent.tick, MonitorEvent.probeResult (Except.ok true),
      MonitorEvent.emitSend dummyTerminationEvent] rfl rfl

/-- A nonempty list is not isEmpty. -/
theorem isEmpty_eq_false_of_mem {α : Type} {x : α} : ∀ {l : List α}, x ∈ l → l.isEmpty = false
  | [], h => absurd h (List.not_mem_nil x)
  | _ :: _, _ => rfl

/-- Membership survives the conditional append of a registry block. -/
theorem mem_appendIfEnabled_of_mem {x : Option Handler} {l : List (Option Handler)}
    (flag : Bool) (ctor : Except String Handler) (h : x ∈ l) :
    x ∈ appendIfEnabled flag l ctor := by
  unfold appendIfEnabled
  split
  · exact List.mem_append_left _ h
  · exact h

/-- An enabled block puts its constructor outcome into the list. -/
theorem mem_appendIfEnabled_self (l : List (Option Handler))
    (ctor : Except String Handler) :
    ctor.toOption ∈ appendIfEnabled true l ctor := by
  unfold appendIfEnabled
  simp

/-- C10: when kubernetes is enabled and its constructor fails,
RegisterHandlers still returns success, and the returned handler list
contains a nil (none) entry — the construction failure neither aborts
registration nor triggers the no-handlers-registered error. -/
theorem registerHandlers_keeps_nil_handler (providerName : String) (hc : HandlerConfig)
    (kc tc nc : Except String Handler) (msg : String)
    (hk : hc.kubernetes.enabled = true) (he : kc = Except.error msg) :
    ∃ l, registerHandlers providerName hc kc tc nc = Except.ok l ∧ none ∈ l := by
  have hmem : none ∈ registeredHandlerList providerName hc kc tc nc := by
    unfold registeredHandlerList
    refine mem_appendIfEnabled_of_mem _ _ (mem_appendIfEnabled_of_mem _ _ ?_)
    rw [hk, he]
    exact mem_appendIfEnabled_self (registryBase providerName) (Except.error msg)
  unfold registerHandlers
  rw [isEmpty_eq_false_of_mem hmem]
  exact ⟨_, rfl, hmem⟩

/-- C10 witness: provider aws, only kubernetes enabled, its constructor
failing — registration succeeds and the list holds a nil entry. -/
theorem registerHandlers_keeps_nil_handler_witness :
    ∃ l, registerHandlers "aws" k8sOnlyHandlerConfig (Except.error "boom")
      (Except.error "t") (Except.error "n") = Except.ok l ∧ none ∈ l :=
  registerHandlers_keeps_nil_handler "aws" k8sOnlyHandlerConfig
    (Except.error "boom") (Except.error "t") (Except.error "n") "boom" rfl rfl

end Evacuator
